import Mathlib

/-!
# SlideFlow — verification of the slide/style normalization and export pipeline

This development shallowly embeds the core presentation logic of the
SlideFlow frontend: the template catalog, the style resolver
(`getTemplateStyles`), the presentation state store and its mutation
operations (`addSlide`, `updateSlide`, `removeSlide`, `reorderSlides`),
the generation-response mapping (`applyGenerateResponse`), the export
payload builder (`ApiService.exportPresentation`), and the
download-filename selection.  JavaScript optional fields are modelled
with `Option`, and JavaScript string truthiness (where the empty string
is falsy) is modelled explicitly.
-/

namespace SlideFlow

/-- JS `x || d` for an optional string `x` and a string default `d`:
the default is taken when `x` is `undefined` or the (falsy) empty string. -/
def jsOrStr (o : Option String) (d : String) : String :=
  match o with
  | some s => if s = "" then d else s
  | none => d

/-- JS `x || y` for two optional strings: `y` is taken when `x` is
`undefined` or the (falsy) empty string. -/
def jsOr (a b : Option String) : Option String :=
  match a with
  | some s => if s = "" then b else s
  | none => b

/-- JS truthiness test used in `if (slide.field) obj.field = slide.field`:
keeps the value only when it is present and non-empty. -/
def jsTruthy (o : Option String) : Option String :=
  match o with
  | some s => if s = "" then none else some s
  | none => none

/-- Internal slide representation (interface `Slide` of the
PresentationContext).  The `type` is one of the six slide-kind strings at
the TypeScript level, but the runtime value is an arbitrary string (the
generation response's `type` is passed through unchecked), so it is
modelled as `String`. -/
structure Slide where
  id : String
  type : String
  title : Option String := none
  content : Option String := none
  imageUrl : Option String := none
  bullets : Option (List String) := none
  quote : Option String := none
  author : Option String := none
  leftContent : Option String := none
  rightContent : Option String := none
deriving Repr, DecidableEq

/-- `Partial<Slide>`: every field optional; a present field overrides the
corresponding field of the slide it is spread onto. -/
structure SlideUpdate where
  id : Option String := none
  type : Option String := none
  title : Option (Option String) := none
  content : Option (Option String) := none
  imageUrl : Option (Option String) := none
  bullets : Option (Option (List String)) := none
  quote : Option (Option String) := none
  author : Option (Option String) := none
  leftContent : Option (Option String) := none
  rightContent : Option (Option String) := none
deriving Repr

/-- JS object spread `{ ...slide, ...slideUpdates }`. -/
def mergeSlide (s : Slide) (u : SlideUpdate) : Slide :=
  { id := u.id.getD s.id
    type := u.type.getD s.type
    title := u.title.getD s.title
    content := u.content.getD s.content
    imageUrl := u.imageUrl.getD s.imageUrl
    bullets := u.bullets.getD s.bullets
    quote := u.quote.getD s.quote
    author := u.author.getD s.author
    leftContent := u.leftContent.getD s.leftContent
    rightContent := u.rightContent.getD s.rightContent }

/-- Template catalog entry (`interface Template`). -/
structure Template where
  id : String
  name : String
  description : String
  primaryColor : String
  secondaryColor : String
  accentColor : String
  previewImageUrl : String
deriving Repr, DecidableEq

def corporateTemplate : Template :=
  { id := "corporate", name := "Corporate"
    description := "Professional design for business presentations"
    primaryColor := "#0F62FE", secondaryColor := "#6F6F6F"
    accentColor := "#4589FF", previewImageUrl := "/placeholder.svg" }

def creativeTemplate : Template :=
  { id := "creative", name := "Creative"
    description := "Vibrant design for creative presentations"
    primaryColor := "#FF3366", secondaryColor := "#9C27B0"
    accentColor := "#FFCC00", previewImageUrl := "/placeholder.svg" }

def academicTemplate : Template :=
  { id := "academic", name := "Academic"
    description := "Structured design for educational content"
    primaryColor := "#006064", secondaryColor := "#00897B"
    accentColor := "#4DD0E1", previewImageUrl := "/placeholder.svg" }

def marketingTemplate : Template :=
  { id := "marketing", name := "Marketing"
    description := "Persuasive design for sales pitches"
    primaryColor := "#FF5722", secondaryColor := "#FF9800"
    accentColor := "#FFC107", previewImageUrl := "/placeholder.svg" }

def minimalistTemplate : Template :=
  { id := "minimalist", name := "Minimalist"
    description := "Clean, typography-focused design"
    primaryColor := "#212121", secondaryColor := "#757575"
    accentColor := "#BDBDBD", previewImageUrl := "/placeholder.svg" }

def techStartupTemplate : Template :=
  { id := "techStartup", name := "Tech/Startup"
    description := "Modern design for innovative tech companies"
    primaryColor := "#00A8E8", secondaryColor := "#1E1E1E"
    accentColor := "#2ECC71", previewImageUrl := "/placeholder.svg" }

def businessPitchTemplate : Template :=
  { id := "businessPitch", name := "Business Pitch Deck"
    description := "Professional design for impactful business pitches"
    primaryColor := "#001F3F", secondaryColor := "#FFFFFF"
    accentColor := "#444444", previewImageUrl := "/placeholder.svg" }

def futuristicTemplate : Template :=
  { id := "futuristic", name := "Futuristic"
    description := "Forward-thinking design with high-tech aesthetics"
    primaryColor := "#00FFFF", secondaryColor := "#000000"
    accentColor := "#240046", previewImageUrl := "/placeholder.svg" }

def elegantTemplate : Template :=
  { id := "elegant", name := "Elegant/Luxury"
    description := "Sophisticated design for premium presentations"
    primaryColor := "#D4AF37", secondaryColor := "#000000"
    accentColor := "#4A0D37", previewImageUrl := "/placeholder.svg" }

def healthcareTemplate : Template :=
  { id := "healthcare", name := "Healthcare/Medical"
    description := "Professional design for medical presentations"
    primaryColor := "#007BFF", secondaryColor := "#FFFFFF"
    accentColor := "#00897B", previewImageUrl := "/placeholder.svg" }

def financeTemplate : Template :=
  { id := "finance", name := "Finance & Investment"
    description := "Sharp design for financial presentations"
    primaryColor := "#004B23", secondaryColor := "#FFFFFF"
    accentColor := "#2A3D66", previewImageUrl := "/placeholder.svg" }

def eventTemplate : Template :=
  { id := "event", name := "Event/Conference"
    description := "Eye-catching design for event presentations"
    primaryColor := "#E63946", secondaryColor := "#000033"
    accentColor := "#007BFF", previewImageUrl := "/placeholder.svg" }

def elearningTemplate : Template :=
  { id := "elearning", name := "E-learning/Educational"
    description := "Engaging design for educational content"
    primaryColor := "#004D40", secondaryColor := "#FFFFFF"
    accentColor := "#FFF8E1", previewImageUrl := "/placeholder.svg" }

def travelTemplate : Template :=
  { id := "travel", name := "Travel & Adventure"
    description := "Vibrant design for travel-related presentations"
    primaryColor := "#1E90FF", secondaryColor := "#87CEFA"
    accentColor := "#8B4513", previewImageUrl := "/placeholder.svg" }

/-- The static template catalog (`availableTemplates`). -/
def availableTemplates : List Template :=
  [corporateTemplate, creativeTemplate, academicTemplate, marketingTemplate,
   minimalistTemplate, techStartupTemplate, businessPitchTemplate,
   futuristicTemplate, elegantTemplate, healthcareTemplate, financeTemplate,
   eventTemplate, elearningTemplate, travelTemplate]

/-- Presentation state aggregate (`interface PresentationState`).  The
uploaded document handle is modelled by its presence. -/
structure PresentationState where
  title : String
  description : String
  slides : List Slide
  selectedTemplate : String
  isGenerating : Bool
  generationProgress : Nat
  promptText : String
  hasUploadedDocument : Bool
  slideCount : Nat
deriving Repr

namespace PresentationContext

/-- `addSlide`: appends the given slide to the slide list. -/
def addSlide (st : PresentationState) (slide : Slide) : PresentationState :=
  { st with slides := st.slides ++ [slide] }

/-- `updateSlide`: spreads the partial update onto every slide whose id
matches. -/
def updateSlide (st : PresentationState) (id : String) (upd : SlideUpdate) :
    PresentationState :=
  { st with slides := st.slides.map (fun s => if s.id = id then mergeSlide s upd else s) }

/-- `removeSlide`: keeps only the slides whose id differs. -/
def removeSlide (st : PresentationState) (id : String) : PresentationState :=
  { st with slides := st.slides.filter (fun s => s.id ≠ id) }

/-- `reorderSlides` at the array level, with JavaScript `splice`
semantics: `result.splice(startIndex, 1)` removes the element at
`startIndex` when it exists (and nothing otherwise, destructuring
`removed` to `undefined`), then `result.splice(endIndex, 0, removed)`
inserts `removed` at `endIndex` clamped to the array length.  Because
`removed` can be `undefined`, the resulting array holds
slide-or-undefined entries, modelled as `Option α`. -/
def reorderSlides (l : List α) (startIndex endIndex : Nat) : List (Option α) :=
  let removed : Option α := l.get? startIndex
  let rest := l.eraseIdx startIndex
  (rest.map some).insertIdx (min endIndex rest.length) removed

end PresentationContext

/-- Per-template entry of the static styling table inside
`getTemplateStyles`.  Its `primaryColor`/`secondaryColor` are written as
`templateObj.primaryColor`/`templateObj.secondaryColor` in the source, so
the entries are parameterized by the resolved catalog object. -/
structure StaticStyle where
  fontFamily : String
  titleFontSize : String
  contentFontSize : String
  titleFontWeight : String
  contentFontWeight : String
  titleTextTransform : Option String := none
  titleFontStyle : Option String := none
  textColor : String
  backgroundColor : String
  accentColor : String
  gradient : String
  primaryColor : String
  secondaryColor : String
deriving Repr, DecidableEq

def corporateStyling (tObj : Template) : StaticStyle :=
  { fontFamily := "Roboto, Arial, sans-serif"
    titleFontSize := "44pt", contentFontSize := "28pt"
    titleFontWeight := "bold", contentFontWeight := "regular"
    textColor := "#002B5B", backgroundColor := "#FFFFFF"
    accentColor := "#4589FF", gradient := "none"
    primaryColor := tObj.primaryColor, secondaryColor := tObj.secondaryColor }

def creativeStyling (tObj : Template) : StaticStyle :=
  { fontFamily := "Lobster, Montserrat, sans-serif"
    titleFontSize := "48pt", contentFontSize := "28pt"
    titleFontWeight := "bold", contentFontWeight := "regular"
    textColor := "#5A189A", backgroundColor := "#F5F5F5"
    accentColor := "#FFCC00"
    gradient := "linear-gradient(135deg, #FF3366 0%, #9C27B0 100%)"
    primaryColor := tObj.primaryColor, secondaryColor := tObj.secondaryColor }

def minimalistStyling (tObj : Template) : StaticStyle :=
  { fontFamily := "Futura, Helvetica Neue, Arial, sans-serif"
    titleFontSize := "42pt", contentFontSize := "26pt"
    titleFontWeight := "bold", contentFontWeight := "regular"
    textColor := "#444444", backgroundColor := "#FFFFFF"
    accentColor := "#BDBDBD", gradient := "none"
    primaryColor := tObj.primaryColor, secondaryColor := tObj.secondaryColor }

def academicStyling (tObj : Template) : StaticStyle :=
  { fontFamily := "Times New Roman, Georgia, serif"
    titleFontSize := "44pt", contentFontSize := "26pt"
    titleFontWeight := "bold", contentFontWeight := "regular"
    textColor := "#1C3D6E", backgroundColor := "#FAF3E0"
    accentColor := "#4DD0E1", gradient := "none"
    primaryColor := tObj.primaryColor, secondaryColor := tObj.secondaryColor }

def marketingStyling (tObj : Template) : StaticStyle :=
  { fontFamily := "Impact, Raleway, sans-serif"
    titleFontSize := "46pt", contentFontSize := "28pt"
    titleFontWeight := "bold", contentFontWeight := "regular"
    textColor := "#E63946", backgroundColor := "#FFFFFF"
    accentColor := "#FFC107", gradient := "none"
    primaryColor := tObj.primaryColor, secondaryColor := tObj.secondaryColor }

def techStartupStyling (tObj : Template) : StaticStyle :=
  { fontFamily := "Orbitron, Exo, Ubuntu, sans-serif"
    titleFontSize := "48pt", contentFontSize := "28pt"
    titleFontWeight := "semi-bold", contentFontWeight := "regular"
    textColor := "#00A8E8", backgroundColor := "#1E1E1E"
    accentColor := "#2ECC71"
    gradient := "linear-gradient(135deg, #004e92 0%, #8a2be2 100%)"
    primaryColor := tObj.primaryColor, secondaryColor := tObj.secondaryColor }

def businessPitchStyling (tObj : Template) : StaticStyle :=
  { fontFamily := "Baskerville, Proxima Nova, Lato, serif"
    titleFontSize := "46pt", contentFontSize := "30pt"
    titleFontWeight := "bold", contentFontWeight := "regular"
    textColor := "#001F3F", backgroundColor := "#FFFFFF"
    accentColor := "#444444", gradient := "none"
    primaryColor := tObj.primaryColor, secondaryColor := tObj.secondaryColor }

def futuristicStyling (tObj : Template) : StaticStyle :=
  { fontFamily := "Audiowide, Orbitron, Rajdhani, sans-serif"
    titleFontSize := "50pt", contentFontSize := "28pt"
    titleFontWeight := "bold", contentFontWeight := "regular"
    titleTextTransform := some "uppercase"
    textColor := "#00FFFF", backgroundColor := "#000000"
    accentColor := "#00E5FF"
    gradient := "linear-gradient(135deg, #000000 0%, #240046 100%)"
    primaryColor := tObj.primaryColor, secondaryColor := tObj.secondaryColor }

def elegantStyling (tObj : Template) : StaticStyle :=
  { fontFamily := "Playfair Display, Cormorant, Cinzel, serif"
    titleFontSize := "50pt", contentFontSize := "28pt"
    titleFontWeight := "bold", contentFontWeight := "regular"
    titleFontStyle := some "italic"
    textColor := "#D4AF37", backgroundColor := "#000000"
    accentColor := "#4A0D37", gradient := "none"
    primaryColor := tObj.primaryColor, secondaryColor := tObj.secondaryColor }

def healthcareStyling (tObj : Template) : StaticStyle :=
  { fontFamily := "Verdana, Nunito, Open Sans, sans-serif"
    titleFontSize := "44pt", contentFontSize := "26pt"
    titleFontWeight := "bold", contentFontWeight := "regular"
    textColor := "#007BFF", backgroundColor := "#FFFFFF"
    accentColor := "#00897B", gradient := "none"
    primaryColor := tObj.primaryColor, secondaryColor := tObj.secondaryColor }

def financeStyling (tObj : Template) : StaticStyle :=
  { fontFamily := "Garamond, Franklin Gothic, Source Sans Pro, serif"
    titleFontSize := "46pt", contentFontSize := "28pt"
    titleFontWeight := "bold", contentFontWeight := "regular"
    textColor := "#004B23", backgroundColor := "#F4F4F4"
    accentColor := "#2A3D66", gradient := "none"
    primaryColor := tObj.primaryColor, secondaryColor := tObj.secondaryColor }

def eventStyling (tObj : Template) : StaticStyle :=
  { fontFamily := "Oswald, Abril Fatface, Raleway, sans-serif"
    titleFontSize := "52pt", contentFontSize := "30pt"
    titleFontWeight := "bold", contentFontWeight := "regular"
    textColor := "#E63946", backgroundColor := "#FFFFFF"
    accentColor := "#007BFF"
    gradient := "linear-gradient(135deg, #000033 0%, #4B0082 100%)"
    primaryColor := tObj.primaryColor, secondaryColor := tObj.secondaryColor }

def elearningStyling (tObj : Template) : StaticStyle :=
  { fontFamily := "\"Comic Sans MS\", Merriweather, Quicksand, sans-serif"
    titleFontSize := "42pt", contentFontSize := "26pt"
    titleFontWeight := "bold", contentFontWeight := "regular"
    textColor := "#004D40", backgroundColor := "#FFFFFF"
    accentColor := "#333333", gradient := "none"
    primaryColor := tObj.primaryColor, secondaryColor := tObj.secondaryColor }

def travelStyling (tObj : Template) : StaticStyle :=
  { fontFamily := "Pacifico, Lobster, Raleway, sans-serif"
    titleFontSize := "48pt", contentFontSize := "28pt"
    titleFontWeight := "bold", contentFontWeight := "regular"
    textColor := "#1E90FF", backgroundColor := "#87CEFA"
    accentColor := "#8B4513", gradient := "none"
    primaryColor := tObj.primaryColor, secondaryColor := tObj.secondaryColor }

/-- Key lookup `templateStyling[templateId]` on the static styling object
literal of `getTemplateStyles` (which captures `templateObj`). -/
def templateStyling (tObj : Template) (id : String) : Option StaticStyle :=
  if id = "corporate" then some (corporateStyling tObj)
  else if id = "creative" then some (creativeStyling tObj)
  else if id = "minimalist" then some (minimalistStyling tObj)
  else if id = "academic" then some (academicStyling tObj)
  else if id = "marketing" then some (marketingStyling tObj)
  else if id = "techStartup" then some (techStartupStyling tObj)
  else if id = "businessPitch" then some (businessPitchStyling tObj)
  else if id = "futuristic" then some (futuristicStyling tObj)
  else if id = "elegant" then some (elegantStyling tObj)
  else if id = "healthcare" then some (healthcareStyling tObj)
  else if id = "finance" then some (financeStyling tObj)
  else if id = "event" then some (eventStyling tObj)
  else if id = "elearning" then some (elearningStyling tObj)
  else if id = "travel" then some (travelStyling tObj)
  else none

/-- The fully resolved style bundle returned by `getTemplateStyles`:
the spread of the template-specific static style, with the color fields
overwritten (in both naming conventions) as in the source's final
object literal. -/
structure StyleBundle where
  fontFamily : String
  titleFontSize : String
  contentFontSize : String
  titleFontWeight : String
  contentFontWeight : String
  titleTextTransform : Option String
  titleFontStyle : Option String
  gradient : String
  primaryColor : String
  primary_color : String
  secondaryColor : String
  secondary_color : String
  accentColor : String
  accent_color : String
  backgroundColor : String
  background_color : String
  textColor : String
  text_color : String
deriving Repr, DecidableEq

/-- `getTemplateStyles(templateId)`: the Style Resolver.  Looks up the
catalog entry (falling back to `availableTemplates[0]`, the corporate
entry), looks up the static styling table (falling back to its
`corporate` entry), and returns the spread of the static style with the
primary/secondary/accent colors overwritten from the catalog entry and
the background/text colors taken from the static style, each duplicated
under its snake_case name. -/
def getTemplateStyles (templateId : String) : StyleBundle :=
  let templateObj :=
    (availableTemplates.find? (fun t => t.id = templateId)).getD corporateTemplate
  let templateSpecificStyles :=
    (templateStyling templateObj templateId).getD (corporateStyling templateObj)
  { fontFamily := templateSpecificStyles.fontFamily
    titleFontSize := templateSpecificStyles.titleFontSize
    contentFontSize := templateSpecificStyles.contentFontSize
    titleFontWeight := templateSpecificStyles.titleFontWeight
    contentFontWeight := templateSpecificStyles.contentFontWeight
    titleTextTransform := templateSpecificStyles.titleTextTransform
    titleFontStyle := templateSpecificStyles.titleFontStyle
    gradient := templateSpecificStyles.gradient
    primaryColor := templateObj.primaryColor
    primary_color := templateObj.primaryColor
    secondaryColor := templateObj.secondaryColor
    secondary_color := templateObj.secondaryColor
    accentColor := templateObj.accentColor
    accent_color := templateObj.accentColor
    backgroundColor := templateSpecificStyles.backgroundColor
    background_color := templateSpecificStyles.backgroundColor
    textColor := templateSpecificStyles.textColor
    text_color := templateSpecificStyles.textColor }

/-- One element of the generation response's `slides` sequence, in the
external naming convention (`image_url`, `left_content`, `right_content`,
`subtitle`). -/
structure RespSlide where
  type : String
  title : Option String := none
  content : Option String := none
  subtitle : Option String := none
  image_url : Option String := none
  bullets : Option (List String) := none
  quote : Option String := none
  author : Option String := none
  left_content : Option String := none
  right_content : Option String := none
deriving Repr

/-- The generation response body: optional `title`, optional `slides`. -/
structure GenResponse where
  title : Option String := none
  slides : Option (List RespSlide) := none
deriving Repr

/-- The per-element mapping of `response.slides.map((slide, index) => ...)`:
identifier `String(index + 1)`, content falling back from `content` to
`subtitle`, external snake_case names mapped to the internal camelCase
fields. -/
def transformSlide (index : Nat) (slide : RespSlide) : Slide :=
  { id := toString (index + 1)
    type := slide.type
    title := slide.title
    content := jsOr slide.content slide.subtitle
    imageUrl := slide.image_url
    bullets := slide.bullets
    quote := slide.quote
    author := slide.author
    leftContent := slide.left_content
    rightContent := slide.right_content }

/-- Index-carrying map over the response slides, starting at `index`. -/
def transformSlides (index : Nat) : List RespSlide → List Slide
  | [] => []
  | s :: rest => transformSlide index s :: transformSlides (index + 1) rest

namespace PresentationContext

/-- The response-application step of `generatePresentation` (after the
network call returns): when the response is present and carries a
`slides` field, replace the whole slide list by the transformed slides
and, if a (truthy) `title` is present, replace the title; otherwise
leave the state untouched (only an error toast is shown). -/
def applyGenerateResponse (response : Option GenResponse)
    (st : PresentationState) : PresentationState :=
  match response with
  | some r =>
    match r.slides with
    | some sl =>
      let transformedSlides := transformSlides 0 sl
      let st1 := { st with slides := transformedSlides }
      match r.title with
      | some t => if t = "" then st1 else { st1 with title := t }
      | none => st1
    | none => st
  | none => st

end PresentationContext

namespace ApiService

/-- The `templateDetails` argument of the export request: the resolved
style bundle as an untyped JS object, every styling field possibly
absent. -/
structure TemplateDetails where
  backgroundColor : Option String := none
  textColor : Option String := none
  primaryColor : Option String := none
  secondaryColor : Option String := none
  accentColor : Option String := none
  fontFamily : Option String := none
  titleFontSize : Option String := none
  contentFontSize : Option String := none
  titleFontWeight : Option String := none
  contentFontWeight : Option String := none
deriving Repr

/-- A slide object as it appears in `contentData.slides` and in the
export payload's `slides`: a `type`, an always-present `title`, and
kind-specific fields that are emitted only when present. -/
structure ExportSlide where
  type : String
  title : String
  content : Option String := none
  bullets : Option (List String) := none
  quote : Option String := none
  author : Option String := none
  image_url : Option String := none
  left_content : Option String := none
  right_content : Option String := none
deriving Repr, DecidableEq

/-- The `contentData` argument of the export request. -/
structure ContentData where
  title : String
  slides : List ExportSlide
deriving Repr

/-- The per-slide step of `data.contentData.slides.map(slide => ...)` in
the export payload builder: `type` and `title || ""` always, each other
field only when truthy (arrays are always truthy in JS, so `bullets`
passes through whenever present). -/
def toPayloadSlide (slide : ExportSlide) : ExportSlide :=
  { type := slide.type
    title := if slide.title = "" then "" else slide.title
    content := jsTruthy slide.content
    bullets := slide.bullets
    quote := jsTruthy slide.quote
    author := jsTruthy slide.author
    image_url := jsTruthy slide.image_url
    left_content := jsTruthy slide.left_content
    right_content := jsTruthy slide.right_content }

/-- The nested `template_details` object of the export payload: template
identification, the spread of the (optional-field) `templateDetails`
argument, and defaulted snake_case copies. -/
structure TemplateDetailsOut where
  template_id : String
  template_name : String
  backgroundColor : Option String
  textColor : Option String
  primaryColor : Option String
  secondaryColor : Option String
  accentColor : Option String
  fontFamily : Option String
  titleFontSize : Option String
  contentFontSize : Option String
  titleFontWeight : Option String
  contentFontWeight : Option String
  background_color : String
  text_color : String
  primary_color : String
  secondary_color : String
  accent_color : String
  font_family : String
  title_font_size : String
  content_font_size : String
deriving Repr

/-- The export request body (`simplePayload`): format, template
identification, title (defaulted), normalized slides, and the full
styling record in both camelCase and snake_case, plus the nested
`template_details` copy. -/
structure ExportPayload where
  format : String
  template_style : String
  template_id : String
  template_name : String
  title : String
  slides : List ExportSlide
  backgroundColor : String
  textColor : String
  primaryColor : String
  secondaryColor : String
  accentColor : String
  fontFamily : String
  titleFontSize : String
  contentFontSize : String
  titleFontWeight : String
  contentFontWeight : String
  background_color : String
  text_color : String
  primary_color : String
  secondary_color : String
  accent_color : String
  font_family : String
  title_font_size : String
  content_font_size : String
  title_font_weight : String
  content_font_weight : String
  template_details : TemplateDetailsOut
deriving Repr

/-- The payload-building part of `apiService.exportPresentation` (the
construction of `simplePayload` from the request data, before the
network call). -/
def exportPresentation (format templateStyle : String)
    (templateDetailsArg : Option TemplateDetails) (contentData : ContentData) :
    ExportPayload :=
  let templateDetails := templateDetailsArg.getD {}
  { format := format
    template_style := templateStyle
    template_id := templateStyle
    template_name := templateStyle
    title := if contentData.title = "" then "Untitled Presentation" else contentData.title
    slides := contentData.slides.map toPayloadSlide
    backgroundColor := jsOrStr templateDetails.backgroundColor "#FFFFFF"
    textColor := jsOrStr templateDetails.textColor "#000000"
    primaryColor := jsOrStr templateDetails.primaryColor "#0066CC"
    secondaryColor := jsOrStr templateDetails.secondaryColor "#6F6F6F"
    accentColor := jsOrStr templateDetails.accentColor "#4589FF"
    fontFamily := jsOrStr templateDetails.fontFamily "Arial, sans-serif"
    titleFontSize := jsOrStr templateDetails.titleFontSize "44pt"
    contentFontSize := jsOrStr templateDetails.contentFontSize "28pt"
    titleFontWeight := jsOrStr templateDetails.titleFontWeight "bold"
    contentFontWeight := jsOrStr templateDetails.contentFontWeight "regular"
    background_color := jsOrStr templateDetails.backgroundColor "#FFFFFF"
    text_color := jsOrStr templateDetails.textColor "#000000"
    primary_color := jsOrStr templateDetails.primaryColor "#0066CC"
    secondary_color := jsOrStr templateDetails.secondaryColor "#6F6F6F"
    accent_color := jsOrStr templateDetails.accentColor "#4589FF"
    font_family := jsOrStr templateDetails.fontFamily "Arial, sans-serif"
    title_font_size := jsOrStr templateDetails.titleFontSize "44pt"
    content_font_size := jsOrStr templateDetails.contentFontSize "28pt"
    title_font_weight := jsOrStr templateDetails.titleFontWeight "bold"
    content_font_weight := jsOrStr templateDetails.contentFontWeight "regular"
    template_details :=
      { template_id := templateStyle
        template_name := templateStyle
        backgroundColor := templateDetails.backgroundColor
        textColor := templateDetails.textColor
        primaryColor := templateDetails.primaryColor
        secondaryColor := templateDetails.secondaryColor
        accentColor := templateDetails.accentColor
        fontFamily := templateDetails.fontFamily
        titleFontSize := templateDetails.titleFontSize
        contentFontSize := templateDetails.contentFontSize
        titleFontWeight := templateDetails.titleFontWeight
        contentFontWeight := templateDetails.contentFontWeight
        background_color := jsOrStr templateDetails.backgroundColor "#FFFFFF"
        text_color := jsOrStr templateDetails.textColor "#000000"
        primary_color := jsOrStr templateDetails.primaryColor "#0066CC"
        secondary_color := jsOrStr templateDetails.secondaryColor "#6F6F6F"
        accent_color := jsOrStr templateDetails.accentColor "#4589FF"
        font_family := jsOrStr templateDetails.fontFamily "Arial, sans-serif"
        title_font_size := jsOrStr templateDetails.titleFontSize "44pt"
        content_font_size := jsOrStr templateDetails.contentFontSize "28pt" } }

/-- Filename selection of the blob-download path in the api service
(`apiService.exportPresentation` in the context-free api module):
start from `"presentation"`, replace it by the content-disposition
filename hint when the header is present and matches, then append
`"." + format` when the name contains no dot. -/
def downloadFilename (format : String) (filenameHint : Option String) : String :=
  let filename :=
    match filenameHint with
    | some hint => hint
    | none => "presentation"
  if filename.contains '.' then filename else filename ++ "." ++ format

/-- Filename selection of the simplified fetch-based export path
(`const filename = presentation.<format>`): the content-disposition
hint of the response is never consulted. -/
def simpleDownloadFilename (format : String) (_filenameHint : Option String) :
    String :=
  "presentation." ++ format

end ApiService

namespace PresentationContext

/-- The per-slide step of the `contentData` construction in the
context-level export action: a complete slide object with `type`,
`title || ""`, and each kind-specific field only when truthy (`bullets`
additionally requires a non-empty array; `author` is only attached
inside the `quote` branch). -/
def toContentSlide (slide : Slide) : ApiService.ExportSlide :=
  { type := slide.type
    title := jsOrStr slide.title ""
    content := jsTruthy slide.content
    bullets :=
      match slide.bullets with
      | some bs => if bs.length > 0 then some bs else none
      | none => none
    quote := jsTruthy slide.quote
    author :=
      match jsTruthy slide.quote with
      | some _ => jsTruthy slide.author
      | none => none
    image_url := jsTruthy slide.imageUrl
    left_content := jsTruthy slide.leftContent
    right_content := jsTruthy slide.rightContent }

/-- The `templateDetails` object assembled by the context-level export
action: the spread of `getTemplateStyles(selectedTemplate)`, then of the
catalog entry, then explicit per-field overrides; reduced here to the
ten styling fields the payload builder consumes. -/
def exportTemplateDetails (templateId : String) : ApiService.TemplateDetails :=
  let templateStyles := getTemplateStyles templateId
  let selectedTemplateObj :=
    (availableTemplates.find? (fun t => t.id = templateId)).getD corporateTemplate
  { backgroundColor := some templateStyles.backgroundColor
    textColor := some templateStyles.textColor
    primaryColor := some selectedTemplateObj.primaryColor
    secondaryColor := some selectedTemplateObj.secondaryColor
    accentColor := some selectedTemplateObj.accentColor
    fontFamily := some templateStyles.fontFamily
    titleFontSize := some templateStyles.titleFontSize
    contentFontSize := some templateStyles.contentFontSize
    titleFontWeight := some templateStyles.titleFontWeight
    contentFontWeight := some templateStyles.contentFontWeight }

/-- The context-level export action: sets `isGenerating`, fails fast
(producing no payload) when the slide list is empty, and otherwise
builds `contentData` and the export payload; `isGenerating` is cleared
on every path.  The first component is the payload handed to the
network boundary (`none` = no network call). -/
def exportPresentation (st : PresentationState) (format : String) :
    Option ApiService.ExportPayload × PresentationState :=
  let st1 := { st with isGenerating := true }
  if st1.slides.length = 0 then
    (none, { st1 with isGenerating := false })
  else
    let contentData : ApiService.ContentData :=
      { title := if st.title = "" then "Untitled Presentation" else st.title
        slides := st.slides.map toContentSlide }
    let payload := ApiService.exportPresentation format st.selectedTemplate
        (some (exportTemplateDetails st.selectedTemplate)) contentData
    (some payload, { st1 with isGenerating := false })

end PresentationContext

/-! ### Injectivity of the decimal representation of naturals

The generation-response mapping assigns slide identifiers
`String(index + 1)`; distinctness of these identifiers amounts to the
injectivity of `Nat.repr`, proved here by relating the fuelled
`Nat.toDigitsCore` to `Nat.digits`. -/

theorem digitChar_inj_lt :
    ∀ a, a < 10 → ∀ b, b < 10 → Nat.digitChar a = Nat.digitChar b → a = b := by
  decide

theorem map_digitChar_inj :
    ∀ (l₁ l₂ : List Nat), (∀ x ∈ l₁, x < 10) → (∀ x ∈ l₂, x < 10) →
      l₁.map Nat.digitChar = l₂.map Nat.digitChar → l₁ = l₂ := by
  intro l₁
  induction l₁ with
  | nil => intro l₂ _ _ h; cases l₂ <;> simp_all
  | cons a t ih =>
    intro l₂ h₁ h₂ h
    cases l₂ with
    | nil => simp at h
    | cons b t' =>
      simp only [List.map_cons, List.cons.injEq] at h
      have ha : a = b :=
        digitChar_inj_lt a (h₁ a (by simp)) b (h₂ b (by simp)) h.1
      have ht : t = t' :=
        ih t' (fun x hx => h₁ x (by simp [hx])) (fun x hx => h₂ x (by simp [hx])) h.2
      rw [ha, ht]

theorem toDigitsCore_eq_digits :
    ∀ (fuel n : Nat) (acc : List Char), n < fuel → n ≠ 0 →
      Nat.toDigitsCore 10 fuel n acc =
        ((Nat.digits 10 n).map Nat.digitChar).reverse ++ acc := by
  intro fuel
  induction fuel with
  | zero => intro n acc h _; omega
  | succ f ih =>
    intro n acc hlt hn
    rw [Nat.toDigitsCore]
    by_cases h10 : n / 10 = 0
    · have hlt10 : n < 10 := (Nat.div_eq_zero_iff (by norm_num)).mp h10
      simp only [h10, if_true]
      rw [Nat.digits_of_lt 10 n hn hlt10, Nat.mod_eq_of_lt hlt10]
      simp
    · simp only [h10, if_false]
      have hdiv_lt : n / 10 < n := Nat.div_lt_self (Nat.pos_of_ne_zero hn) (by norm_num)
      have hfuel : n / 10 < f := Nat.lt_of_lt_of_le hdiv_lt (Nat.lt_succ_iff.mp hlt)
      rw [ih (n / 10) (Nat.digitChar (n % 10) :: acc) hfuel h10,
        Nat.digits_def' (by norm_num : (1 : Nat) < 10) (Nat.pos_of_ne_zero hn)]
      simp

theorem digits_map_digitChar_eq_zero_char {n : Nat} (hn : n ≠ 0)
    (h : ((Nat.digits 10 n).map Nat.digitChar).reverse = [Nat.digitChar 0]) :
    False := by
  rw [List.reverse_eq_iff] at h
  simp only [List.reverse_cons, List.reverse_nil, List.nil_append] at h
  rcases hd : Nat.digits 10 n with _ | ⟨d, rest⟩
  · rw [hd] at h; simp at h
  · rw [hd] at h
    simp only [List.map_cons, List.cons.injEq] at h
    have hrest : rest = [] := by
      have := h.2
      cases rest <;> simp_all
    have hd10 : d < 10 :=
      Nat.digits_lt_base (by norm_num) (by rw [hd]; exact List.mem_cons_self d rest)
    have hd0 : d = 0 := digitChar_inj_lt d hd10 0 (by norm_num) h.1
    have hofd := Nat.ofDigits_digits 10 n
    rw [hd, hrest, hd0] at hofd
    simp [Nat.ofDigits] at hofd
    exact hn hofd.symm

/-- `Nat.repr` is injective: distinct naturals have distinct decimal
string representations. -/
theorem nat_repr_injective : Function.Injective Nat.repr := by
  intro m n h
  rw [Nat.repr, Nat.repr, List.asString_inj] at h
  rw [Nat.toDigits, Nat.toDigits] at h
  by_cases hm : m = 0 <;> by_cases hn : n = 0
  · rw [hm, hn]
  · exfalso
    rw [hm] at h
    rw [toDigitsCore_eq_digits (n + 1) n [] (Nat.lt_succ_self n) hn] at h
    simp only [List.append_nil] at h
    exact digits_map_digitChar_eq_zero_char hn h.symm
  · exfalso
    rw [hn] at h
    rw [toDigitsCore_eq_digits (m + 1) m [] (Nat.lt_succ_self m) hm] at h
    simp only [List.append_nil] at h
    exact digits_map_digitChar_eq_zero_char hm h
  · rw [toDigitsCore_eq_digits (m + 1) m [] (Nat.lt_succ_self m) hm,
      toDigitsCore_eq_digits (n + 1) n [] (Nat.lt_succ_self n) hn] at h
    simp only [List.append_nil, List.reverse_inj] at h
    have hdig : Nat.digits 10 m = Nat.digits 10 n :=
      map_digitChar_inj _ _
        (fun x hx => Nat.digits_lt_base (by norm_num) hx)
        (fun x hx => Nat.digits_lt_base (by norm_num) hx) h
    exact Nat.digits_inj_iff.mp hdig

/-- `toString` on naturals is `Nat.repr`, hence injective. -/
theorem nat_toString_injective : Function.Injective (fun n : Nat => toString n) :=
  nat_repr_injective

/-! ### Helper lemmas about the embedded operations -/

theorem transformSlides_length (i : Nat) (l : List RespSlide) :
    (transformSlides i l).length = l.length := by
  induction l generalizing i with
  | nil => rfl
  | cons s rest ih => simp [transformSlides, ih]

theorem transformSlides_get? (i j : Nat) (l : List RespSlide) :
    (transformSlides i l).get? j = (l.get? j).map (transformSlide (i + j)) := by
  induction l generalizing i j with
  | nil => simp [transformSlides]
  | cons s rest ih =>
    cases j with
    | zero => simp [transformSlides]
    | succ j' =>
      simp only [transformSlides, List.get?_cons_succ, ih (i + 1) j']
      have : i + 1 + j' = i + (j' + 1) := by omega
      rw [this]

theorem mem_transformSlides_id {x : String} (i : Nat) (l : List RespSlide) :
    x ∈ (transformSlides i l).map Slide.id →
    ∃ k, k < l.length ∧ x = toString (i + k + 1) := by
  induction l generalizing i with
  | nil => simp [transformSlides]
  | cons s rest ih =>
    intro hx
    simp only [transformSlides, List.map_cons, List.mem_cons] at hx
    rcases hx with hx | hx
    · exact ⟨0, by simp, by simpa [transformSlide] using hx⟩
    · obtain ⟨k, hk, hkx⟩ := ih (i + 1) hx
      exact ⟨k + 1, by simpa using Nat.succ_lt_succ hk, by rw [hkx]; congr 1; omega⟩

theorem transformSlides_ids_nodup (i : Nat) (l : List RespSlide) :
    ((transformSlides i l).map Slide.id).Nodup := by
  induction l generalizing i with
  | nil => simp [transformSlides]
  | cons s rest ih =>
    simp only [transformSlides, List.map_cons, List.nodup_cons]
    refine ⟨fun hmem => ?_, ih (i + 1)⟩
    obtain ⟨k, _, hk⟩ := mem_transformSlides_id (i + 1) rest hmem
    simp only [transformSlide] at hk
    have := nat_toString_injective hk
    omega

theorem map_insertIdx (f : α → β) :
    ∀ (l : List α) (n : Nat) (a : α),
      (l.insertIdx n a).map f = (l.map f).insertIdx n (f a) := by
  intro l
  induction l with
  | nil =>
    intro n a
    cases n with
    | zero => rfl
    | succ n' => simp [List.insertIdx_succ_nil]
  | cons x t ih =>
    intro n a
    cases n with
    | zero => rfl
    | succ n' => simp [List.insertIdx_succ_cons, ih]

theorem perm_insertIdx (a : α) :
    ∀ (l : List α) (n : Nat), n ≤ l.length → (l.insertIdx n a).Perm (a :: l) := by
  intro l
  induction l with
  | nil =>
    intro n hn
    cases n with
    | zero => exact List.Perm.refl _
    | succ n' => simp at hn
  | cons x t ih =>
    intro n hn
    cases n with
    | zero => exact List.Perm.refl _
    | succ n' =>
      rw [List.insertIdx_succ_cons]
      exact ((ih n' (by simpa using hn)).cons x).trans (List.Perm.swap a x t)

theorem perm_get_cons_eraseIdx :
    ∀ (l : List α) (s : Nat) (h : s < l.length),
      l.Perm (l.get ⟨s, h⟩ :: l.eraseIdx s) := by
  intro l
  induction l with
  | nil => intro s h; simp at h
  | cons x t ih =>
    intro s h
    cases s with
    | zero => exact List.Perm.refl _
    | succ s' =>
      have h' : s' < t.length := by simpa using h
      exact ((ih s' h').cons x).trans
        (List.Perm.swap (t.get ⟨s', h'⟩) x (t.eraseIdx s'))

theorem length_eraseIdx_of_lt (l : List α) (s : Nat) (hs : s < l.length) :
    (l.eraseIdx s).length = l.length - 1 := by
  rw [List.length_eraseIdx]
  simp [hs]

theorem reorderSlides_eq_relocate (l : List α) (s e : Nat)
    (hs : s < l.length) (he : e < l.length) :
    PresentationContext.reorderSlides l s e =
      ((l.eraseIdx s).insertIdx e (l.get ⟨s, hs⟩)).map some := by
  unfold PresentationContext.reorderSlides
  have hrest : (l.eraseIdx s).length = l.length - 1 := length_eraseIdx_of_lt l s hs
  have hmin : min e (l.eraseIdx s).length = e := by
    rw [hrest]; omega
  rw [List.get?_eq_get hs]
  simp only [hmin, map_insertIdx]

theorem reorderSlides_perm (l : List α) (s e : Nat) (hs : s < l.length) :
    (PresentationContext.reorderSlides l s e).Perm (l.map some) := by
  unfold PresentationContext.reorderSlides
  rw [List.get?_eq_get hs]
  simp only []
  have hlen : min e (l.eraseIdx s).length ≤ ((l.eraseIdx s).map some).length := by
    simp [Nat.min_le_right]
  exact (perm_insertIdx _ _ _ hlen).trans
    (((perm_get_cons_eraseIdx l s hs).symm).map some)

/-- The default slide list of the initial presentation state
(`defaultSlides`). -/
def defaultSlides : List Slide :=
  [{ id := "1", type := "title", title := some "Your Presentation Title"
     content := some "A subtitle or additional context" }]

/-- The initial presentation state (`initialState`). -/
def initialState : PresentationState :=
  { title := "Untitled Presentation", description := ""
    slides := defaultSlides, selectedTemplate := "corporate"
    isGenerating := false, generationProgress := 0, promptText := ""
    hasUploadedDocument := false, slideCount := 8 }

def slideA : Slide := { id := "a", type := "content", title := some "A" }

def slideB : Slide := { id := "b", type := "content", title := some "B" }

def slideC : Slide := { id := "c", type := "content", title := some "C" }

theorem applyGenerateResponse_some_slides (st : PresentationState)
    (t : Option String) (sl : List RespSlide) :
    (PresentationContext.applyGenerateResponse
        (some { title := t, slides := some sl }) st).slides =
      transformSlides 0 sl := by
  cases t with
  | none => rfl
  | some tt =>
    by_cases h : tt = "" <;> simp [PresentationContext.applyGenerateResponse, h]

theorem templateStyling_none_of_find_none {id : String}
    (h : availableTemplates.find? (fun t => t.id = id) = none) (tObj : Template) :
    templateStyling tObj id = none := by
  simp only [List.find?_eq_none, decide_eq_true_eq] at h
  have h1 : id ≠ "corporate" :=
    fun e => h corporateTemplate (by simp [availableTemplates]) e.symm
  have h2 : id ≠ "creative" :=
    fun e => h creativeTemplate (by simp [availableTemplates]) e.symm
  have h3 : id ≠ "minimalist" :=
    fun e => h minimalistTemplate (by simp [availableTemplates]) e.symm
  have h4 : id ≠ "academic" :=
    fun e => h academicTemplate (by simp [availableTemplates]) e.symm
  have h5 : id ≠ "marketing" :=
    fun e => h marketingTemplate (by simp [availableTemplates]) e.symm
  have h6 : id ≠ "techStartup" :=
    fun e => h techStartupTemplate (by simp [availableTemplates]) e.symm
  have h7 : id ≠ "businessPitch" :=
    fun e => h businessPitchTemplate (by simp [availableTemplates]) e.symm
  have h8 : id ≠ "futuristic" :=
    fun e => h futuristicTemplate (by simp [availableTemplates]) e.symm
  have h9 : id ≠ "elegant" :=
    fun e => h elegantTemplate (by simp [availableTemplates]) e.symm
  have h10 : id ≠ "healthcare" :=
    fun e => h healthcareTemplate (by simp [availableTemplates]) e.symm
  have h11 : id ≠ "finance" :=
    fun e => h financeTemplate (by simp [availableTemplates]) e.symm
  have h12 : id ≠ "event" :=
    fun e => h eventTemplate (by simp [availableTemplates]) e.symm
  have h13 : id ≠ "elearning" :=
    fun e => h elearningTemplate (by simp [availableTemplates]) e.symm
  have h14 : id ≠ "travel" :=
    fun e => h travelTemplate (by simp [availableTemplates]) e.symm
  simp [templateStyling, h1, h2, h3, h4, h5, h6, h7, h8, h9, h10, h11, h12,
    h13, h14]

theorem contains_dot_append (s format : String) :
    (s ++ "." ++ format).contains '.' = true := by
  have hmem : '.' ∈ (s ++ "." ++ format).data := by
    simp [String.data_append]
  exact (String.contains_iff _ '.').mpr hmem

theorem contains_eq_false_of_not_mem {s : String} {c : Char}
    (h : c ∉ s.data) : s.contains c = false := by
  cases hc : s.contains c
  · rfl
  · exact absurd ((String.contains_iff s c).mp hc) h

theorem contains_eq_true_of_mem {s : String} {c : Char}
    (h : c ∈ s.data) : s.contains c = true :=
  (String.contains_iff s c).mpr h

/-! ### Claims -/

/-- C1: For every presentation state with slide list S and template T, the
export payload built by the Export Payload Builder contains each styling
field under both its camelCase name and its snake_case name with equal
values: backgroundColor equals background_color, textColor equals
text_color, primaryColor equals primary_color, secondaryColor equals
secondary_color, accentColor equals accent_color, fontFamily equals
font_family, titleFontSize equals title_font_size, contentFontSize equals
content_font_size, titleFontWeight equals title_font_weight, and
contentFontWeight equals content_font_weight.  (Stated over every input
of the payload builder, which covers every presentation state.) -/
theorem c1_export_payload_dual_naming
    (format templateStyle : String) (td : Option ApiService.TemplateDetails)
    (cd : ApiService.ContentData) :
    (ApiService.exportPresentation format templateStyle td cd).backgroundColor =
      (ApiService.exportPresentation format templateStyle td cd).background_color ∧
    (ApiService.exportPresentation format templateStyle td cd).textColor =
      (ApiService.exportPresentation format templateStyle td cd).text_color ∧
    (ApiService.exportPresentation format templateStyle td cd).primaryColor =
      (ApiService.exportPresentation format templateStyle td cd).primary_color ∧
    (ApiService.exportPresentation format templateStyle td cd).secondaryColor =
      (ApiService.exportPresentation format templateStyle td cd).secondary_color ∧
    (ApiService.exportPresentation format templateStyle td cd).accentColor =
      (ApiService.exportPresentation format templateStyle td cd).accent_color ∧
    (ApiService.exportPresentation format templateStyle td cd).fontFamily =
      (ApiService.exportPresentation format templateStyle td cd).font_family ∧
    (ApiService.exportPresentation format templateStyle td cd).titleFontSize =
      (ApiService.exportPresentation format templateStyle td cd).title_font_size ∧
    (ApiService.exportPresentation format templateStyle td cd).contentFontSize =
      (ApiService.exportPresentation format templateStyle td cd).content_font_size ∧
    (ApiService.exportPresentation format templateStyle td cd).titleFontWeight =
      (ApiService.exportPresentation format templateStyle td cd).title_font_weight ∧
    (ApiService.exportPresentation format templateStyle td cd).contentFontWeight =
      (ApiService.exportPresentation format templateStyle td cd).content_font_weight :=
  ⟨rfl, rfl, rfl, rfl, rfl, rfl, rfl, rfl, rfl, rfl⟩

/-- C2: For every template identifier present in the Template Catalog, the
style bundle returned by `getTemplateStyles` has primaryColor,
secondaryColor and accentColor equal to the catalog entry's colors (the
catalog is authoritative over the static style table). -/
theorem c2_catalog_colors_win (id : String) (t : Template)
    (h : availableTemplates.find? (fun x => x.id = id) = some t) :
    (getTemplateStyles id).primaryColor = t.primaryColor ∧
    (getTemplateStyles id).secondaryColor = t.secondaryColor ∧
    (getTemplateStyles id).accentColor = t.accentColor := by
  have hobj : (availableTemplates.find? (fun x => x.id = id)).getD corporateTemplate = t := by
    rw [h]; rfl
  refine ⟨?_, ?_, ?_⟩ <;> simp [getTemplateStyles, hobj]

/-- Witness for C2 at the `futuristic` template, where the static style
table's accent color (`#00E5FF`) disagrees with the catalog's
(`#240046`): the resolver returns the catalog color. -/
theorem c2_catalog_colors_win_witness :
    availableTemplates.find? (fun x => x.id = "futuristic") = some futuristicTemplate ∧
    (futuristicStyling futuristicTemplate).accentColor ≠ futuristicTemplate.accentColor ∧
    (getTemplateStyles "futuristic").primaryColor = futuristicTemplate.primaryColor ∧
    (getTemplateStyles "futuristic").secondaryColor = futuristicTemplate.secondaryColor ∧
    (getTemplateStyles "futuristic").accentColor = futuristicTemplate.accentColor := by
  have hfind : availableTemplates.find? (fun x => x.id = "futuristic") =
      some futuristicTemplate := rfl
  have h := c2_catalog_colors_win "futuristic" futuristicTemplate hfind
  exact ⟨hfind, by decide, h.1, h.2.1, h.2.2⟩

/-- C3: For every presentation state and every generation response that
lacks a `slides` field (or is absent entirely), applying the generation
response leaves the state — in particular its slide list — exactly as it
was: no slide is added, removed or modified, and the slide-mapping step
is not applied. -/
theorem c3_missing_slides_leaves_state (st : PresentationState)
    (t : Option String) :
    PresentationContext.applyGenerateResponse none st = st ∧
    PresentationContext.applyGenerateResponse
      (some { title := t, slides := none }) st = st ∧
    (PresentationContext.applyGenerateResponse none st).slides = st.slides ∧
    (PresentationContext.applyGenerateResponse
      (some { title := t, slides := none }) st).slides = st.slides :=
  ⟨rfl, rfl, rfl, rfl⟩

/-- C4: For every generation response whose `slides` field is a sequence,
applying the response replaces the whole slide list with one internal
slide per response element; the element at zero-based index i gets
identifier string(i+1) regardless of prior slide identifiers, its `type`
and `title` are carried over, and its content falls back to the
element's subtitle when its content is absent. -/
theorem c4_full_replacement (st : PresentationState) (t : Option String)
    (sl : List RespSlide) :
    (PresentationContext.applyGenerateResponse
        (some { title := t, slides := some sl }) st).slides.length = sl.length ∧
    (∀ i, i < sl.length →
      ((PresentationContext.applyGenerateResponse
          (some { title := t, slides := some sl }) st).slides.get? i).map Slide.id =
        some (toString (i + 1)) ∧
      ((PresentationContext.applyGenerateResponse
          (some { title := t, slides := some sl }) st).slides.get? i).map Slide.type =
        (sl.get? i).map RespSlide.type ∧
      ((PresentationContext.applyGenerateResponse
          (some { title := t, slides := some sl }) st).slides.get? i).map Slide.title =
        (sl.get? i).map RespSlide.title ∧
      ((sl.get? i).bind RespSlide.content = none →
        ((PresentationContext.applyGenerateResponse
            (some { title := t, slides := some sl }) st).slides.get? i).map Slide.content =
          (sl.get? i).map RespSlide.subtitle)) := by
  rw [applyGenerateResponse_some_slides]
  refine ⟨transformSlides_length 0 sl, ?_⟩
  intro i hi
  have hget : sl.get? i = some (sl.get ⟨i, hi⟩) := List.get?_eq_get hi
  rw [transformSlides_get?, hget]
  refine ⟨by simp [transformSlide], by simp [transformSlide], by simp [transformSlide], ?_⟩
  intro hc
  simp only [Option.some_bind] at hc
  have hc' : sl[i].content = none := hc
  simp [transformSlide, jsOr, hc']

/-- Witness for C4: applying the response with slide list
`[{type: title, title: Intro}]` to the initial state yields exactly one
slide with identifier "1", type "title" and title "Intro". -/
theorem c4_full_replacement_witness :
    (PresentationContext.applyGenerateResponse
        (some { title := none,
                slides := some [{ type := "title", title := some "Intro" }] })
        initialState).slides.length = 1 ∧
    ((PresentationContext.applyGenerateResponse
        (some { title := none,
                slides := some [{ type := "title", title := some "Intro" }] })
        initialState).slides.get? 0).map Slide.id = some "1" ∧
    ((PresentationContext.applyGenerateResponse
        (some { title := none,
                slides := some [{ type := "title", title := some "Intro" }] })
        initialState).slides.get? 0).map Slide.type = some "title" ∧
    ((PresentationContext.applyGenerateResponse
        (some { title := none,
                slides := some [{ type := "title", title := some "Intro" }] })
        initialState).slides.get? 0).map Slide.title = some (some "Intro") := by
  have h := c4_full_replacement initialState none
    [{ type := "title", title := some "Intro" }]
  have h0 := h.2 0 (by decide)
  exact ⟨h.1, h0.1, by rw [h0.2.1]; rfl, by rw [h0.2.2.1]; rfl⟩

/-- C5: For every presentation state whose slide list is empty and every
export format, the export operation fails fast: no payload is built
(hence no network call is made), and the slide list, title and selected
template are unchanged. -/
theorem c5_empty_slides_fail_fast (st : PresentationState) (format : String)
    (h : st.slides = []) :
    (PresentationContext.exportPresentation st format).1 = none ∧
    (PresentationContext.exportPresentation st format).2.slides = st.slides ∧
    (PresentationContext.exportPresentation st format).2.title = st.title ∧
    (PresentationContext.exportPresentation st format).2.selectedTemplate =
      st.selectedTemplate := by
  simp [PresentationContext.exportPresentation, h]

/-- Witness for C5 at the initial state with its slides removed. -/
theorem c5_empty_slides_fail_fast_witness :
    (PresentationContext.exportPresentation { initialState with slides := [] }
      "pptx").1 = none ∧
    (PresentationContext.exportPresentation { initialState with slides := [] }
      "pptx").2.slides = [] :=
  ⟨(c5_empty_slides_fail_fast { initialState with slides := [] } "pptx" rfl).1,
   (c5_empty_slides_fail_fast { initialState with slides := [] } "pptx" rfl).2.1⟩

/-- C6: For every template identifier not present in the Template Catalog,
the Style Resolver returns the same fully populated style bundle as for
the identifier "corporate" (both the static style table lookup and the
catalog-color lookup fall back to the corporate entry); it always
returns a bundle (it never fails). -/
theorem c6_unknown_id_falls_back (id : String)
    (h : availableTemplates.find? (fun t => t.id = id) = none) :
    getTemplateStyles id = getTemplateStyles "corporate" := by
  have hsty := templateStyling_none_of_find_none h corporateTemplate
  have hfindc : availableTemplates.find? (fun t => t.id = "corporate") =
      some corporateTemplate := rfl
  simp only [getTemplateStyles, h, hsty, hfindc, Option.getD_none, Option.getD_some]
  rfl

/-- Witness for C6 at the unknown identifier "modern". -/
theorem c6_unknown_id_falls_back_witness :
    availableTemplates.find? (fun t => t.id = "modern") = none ∧
    getTemplateStyles "modern" = getTemplateStyles "corporate" := by
  have h : availableTemplates.find? (fun t => t.id = "modern") = none := rfl
  exact ⟨h, c6_unknown_id_falls_back "modern" h⟩

/-- C7: For every slide list and every pair of valid indices, reordering
is a single-element relocation: the element at the source index is
extracted and reinserted at the destination index, with the relative
order of all other slides preserved; in particular, from [A,B,C],
reorder(0,2) yields [B,C,A] and reorder(2,0) yields [C,A,B]. -/
theorem c7_reorder_is_relocation :
    (∀ (l : List Slide) (s e : Nat) (hs : s < l.length), e < l.length →
      PresentationContext.reorderSlides l s e =
        ((l.eraseIdx s).insertIdx e (l.get ⟨s, hs⟩)).map some) ∧
    (∀ A B C : Slide,
      PresentationContext.reorderSlides [A, B, C] 0 2 =
        [some B, some C, some A] ∧
      PresentationContext.reorderSlides [A, B, C] 2 0 =
        [some C, some A, some B]) := by
  constructor
  · intro l s e hs he
    exact reorderSlides_eq_relocate l s e hs he
  · intro A B C
    exact ⟨rfl, rfl⟩

/-- Witness for C7 on the concrete list [slideA, slideB, slideC]. -/
theorem c7_reorder_is_relocation_witness :
    PresentationContext.reorderSlides [slideA, slideB, slideC] 0 2 =
      [some slideB, some slideC, some slideA] := by
  have h := c7_reorder_is_relocation.1 [slideA, slideB, slideC] 0 2
    (by decide) (by decide)
  exact h.trans rfl

/-- Counterexample for C8: the simplified fetch-based export path names
the saved file `presentation.<format>` even when the response carries a
content-disposition filename hint, so the hint is not used there. -/
theorem c8_counterexample :
    ApiService.simpleDownloadFilename "pptx" (some "custom.pptx") =
      "presentation.pptx" ∧
    "presentation.pptx" ≠ "custom.pptx" :=
  ⟨rfl, by decide⟩

/-- C8 (amended): the api-module blob download path picks the filename
exactly as claimed — the content-disposition hint when present,
`presentation.<format>` otherwise, with `.<format>` appended when the
name lacks a dot, so its result always contains a dot — while the
simplified fetch-based export path always synthesizes
`presentation.<format>`, ignoring any hint. -/
theorem c8_download_filename_amended (format : String) :
    (ApiService.downloadFilename format none = "presentation." ++ format) ∧
    (∀ h : String, h.contains '.' = true →
      ApiService.downloadFilename format (some h) = h) ∧
    (∀ h : String, h.contains '.' = false →
      ApiService.downloadFilename format (some h) = h ++ "." ++ format) ∧
    (∀ hint : Option String,
      (ApiService.downloadFilename format hint).contains '.' = true) ∧
    (∀ hint : Option String,
      ApiService.simpleDownloadFilename format hint = "presentation." ++ format) := by
  have hp : ("presentation" : String).contains '.' = false :=
    contains_eq_false_of_not_mem (by decide)
  have hnone : ApiService.downloadFilename format none =
      "presentation." ++ format := by
    simp only [ApiService.downloadFilename, hp, Bool.false_eq_true, if_false]
    rfl
  refine ⟨hnone, ?_, ?_, ?_, fun _ => rfl⟩
  · intro h hdot
    simp [ApiService.downloadFilename, hdot]
  · intro h hdot
    simp [ApiService.downloadFilename, hdot]
  · intro hint
    cases hint with
    | none =>
      rw [hnone]
      exact contains_dot_append "presentation" format
    | some h =>
      by_cases hdot : h.contains '.' = true
      · simp [ApiService.downloadFilename, hdot]
      · have hdot' : h.contains '.' = false := by
          cases hcase : h.contains '.' <;> simp_all
        simp only [ApiService.downloadFilename, hdot', Bool.false_eq_true,
          if_false]
        exact contains_dot_append h format

/-- Witness for C8 (amended) at format "pptx" with the hints "report"
(no extension), "custom.pptx", and no hint at all. -/
theorem c8_download_filename_amended_witness :
    ApiService.downloadFilename "pptx" (some "report") = "report.pptx" ∧
    ApiService.downloadFilename "pptx" (some "custom.pptx") = "custom.pptx" ∧
    ApiService.downloadFilename "pptx" none = "presentation.pptx" := by
  have h := c8_download_filename_amended "pptx"
  refine ⟨?_, ?_, ?_⟩
  · have hr := h.2.2.1 "report" (contains_eq_false_of_not_mem (by decide))
    rw [hr]; rfl
  · exact h.2.1 "custom.pptx" (contains_eq_true_of_mem (by decide))
  · have hn := h.1
    rw [hn]; rfl

/-- Counterexample for C9: `addSlide` appends its argument without any
identifier check, so adding a slide whose identifier duplicates an
existing one breaks identifier uniqueness. -/
theorem c9_counterexample :
    (initialState.slides.map Slide.id).Nodup ∧
    ¬ (((PresentationContext.addSlide initialState
        { id := "1", type := "content" }).slides.map Slide.id).Nodup) := by
  constructor
  · decide
  · decide

/-- C9 (amended): starting from a state whose slide identifiers are
pairwise distinct, `removeSlide`, `reorderSlides` (for an in-range source
index) and applying a generation response always preserve distinctness;
`addSlide` preserves it provided the added slide's identifier is not
already present, and `updateSlide` preserves it provided the update does
not carry an identifier. -/
theorem c9_id_uniqueness_preserved (st : PresentationState)
    (hnd : (st.slides.map Slide.id).Nodup) :
    (∀ slide : Slide, slide.id ∉ st.slides.map Slide.id →
      ((PresentationContext.addSlide st slide).slides.map Slide.id).Nodup) ∧
    (∀ id : String,
      ((PresentationContext.removeSlide st id).slides.map Slide.id).Nodup) ∧
    (∀ (id : String) (upd : SlideUpdate), upd.id = none →
      ((PresentationContext.updateSlide st id upd).slides.map Slide.id).Nodup) ∧
    (∀ s e : Nat, s < st.slides.length →
      ((PresentationContext.reorderSlides st.slides s e).map
        (Option.map Slide.id)).Nodup) ∧
    (∀ (t : Option String) (sl : List RespSlide),
      ((PresentationContext.applyGenerateResponse
          (some { title := t, slides := some sl }) st).slides.map
        Slide.id).Nodup) := by
  refine ⟨?_, ?_, ?_, ?_, ?_⟩
  · intro slide hmem
    simp only [PresentationContext.addSlide, List.map_append, List.map_cons,
      List.map_nil]
    rw [List.nodup_append]
    exact ⟨hnd, List.nodup_singleton _, by simpa using hmem⟩
  · intro id
    refine List.Nodup.sublist ?_ hnd
    exact (List.filter_sublist st.slides).map Slide.id
  · intro id upd hupd
    have hmap : (st.slides.map
        (fun s => if s.id = id then mergeSlide s upd else s)).map Slide.id =
        st.slides.map Slide.id := by
      rw [List.map_map]
      apply List.map_congr_left
      intro s _
      by_cases h : s.id = id <;> simp [mergeSlide, hupd, h]
    simpa [PresentationContext.updateSlide, hmap] using hnd
  · intro s e hs
    have hperm := (reorderSlides_perm st.slides s e hs).map (Option.map Slide.id)
    rw [List.Perm.nodup_iff hperm]
    rw [List.map_map]
    have : (Option.map Slide.id ∘ some) = some ∘ Slide.id := rfl
    rw [this, ← List.map_map]
    exact hnd.map (Option.some_injective String)
  · intro t sl
    rw [applyGenerateResponse_some_slides]
    exact transformSlides_ids_nodup 0 sl

/-- Witness for C9 (amended) at the initial state. -/
theorem c9_id_uniqueness_preserved_witness :
    (initialState.slides.map Slide.id).Nodup ∧
    ((PresentationContext.removeSlide initialState "1").slides.map
      Slide.id).Nodup ∧
    ((PresentationContext.addSlide initialState
        { id := "2", type := "content" }).slides.map Slide.id).Nodup := by
  have hnd : (initialState.slides.map Slide.id).Nodup := by decide
  have h := c9_id_uniqueness_preserved initialState hnd
  exact ⟨hnd, h.2.1 "1", h.1 { id := "2", type := "content" } (by decide)⟩

/-- C10: `reorderSlides` performs no bounds check: for every slide list
of length n and every source index at least n, the extraction removes
nothing and the insertion places an undefined placeholder entry, so the
result has length n+1 and contains `none` — it is not a relocation of an
existing slide. -/
theorem c10_reorder_out_of_range (l : List Slide) (s e : Nat)
    (hs : l.length ≤ s) :
    (PresentationContext.reorderSlides l s e).length = l.length + 1 ∧
    none ∈ PresentationContext.reorderSlides l s e := by
  unfold PresentationContext.reorderSlides
  have h1 : l.get? s = none := List.get?_eq_none.mpr hs
  have h2 : l.eraseIdx s = l := List.eraseIdx_of_length_le hs
  rw [h1, h2]
  have hle : min e l.length ≤ (l.map some).length := by
    simp [Nat.min_le_right]
  constructor
  · rw [List.length_insertIdx _ _ hle]
    simp
  · exact (List.mem_insertIdx hle).mpr (Or.inl rfl)

/-- Witness for C10 on the singleton list with source index 1. -/
theorem c10_reorder_out_of_range_witness :
    (PresentationContext.reorderSlides [slideA] 1 0).length = 2 ∧
    none ∈ PresentationContext.reorderSlides [slideA] 1 0 :=
  c10_reorder_out_of_range [slideA] 1 0 (by decide)

end SlideFlow
